import Mathlib

/-!
Verification of the retrieval/recommendation layer of the
`Intro-to-Neo4j` repository (files `src/app/vector_store.py` and
`src/app/tools.py`), as a shallow embedding in Lean 4.

Modelling conventions:
* A value read from a Neo4j record may be a missing key, an explicit
  null (Python `None`), or a typed value.  `StrVal` and `NumVal` embed
  these three shapes for string- and number-valued fields.
* Python `float`s are embedded as `ℚ`, Python `int` as `Int`,
  Python strings as `String`.
* Fallible Python functions (returning `None` on failure) are embedded
  as `Option`-returning functions.
-/

namespace MovieRag

/-- A string-valued field of a Neo4j record: the key can be missing, the
stored value can be a null, or it is a string. -/
inductive StrVal where
  | missing : StrVal
  | null : StrVal
  | str : String → StrVal
deriving DecidableEq

/-- A number-valued field of a Neo4j record: the key can be missing or
carry a numeric value (Python floats are embedded as rationals). -/
inductive NumVal where
  | missing : NumVal
  | num : ℚ → NumVal
deriving DecidableEq

/-- Python `record.get(key, dflt)` with a string default: a missing key
yields the default, a stored null yields Python `None` (embedded as
`Option.none`), a string yields itself. -/
def StrVal.get (v : StrVal) (dflt : String) : Option String :=
  match v with
  | .missing => some dflt
  | .null => none
  | .str s => some s

/-- Python `record.get(key)` with no default (default `None`). -/
def StrVal.getN (v : StrVal) : Option String :=
  match v with
  | .missing => none
  | .null => none
  | .str s => some s

/-- Python truthiness of a string-or-`None` value: `None` and `""` are
falsy. -/
def optStrTruthy : Option String → Bool
  | none => false
  | some s => s != ""

/-- Python `str(x)` applied to a string-or-`None` value. -/
def pyStr : Option String → String
  | none => "None"
  | some s => s

/-- Python `x or dflt` on a string-or-`None` value. -/
def pyOr (v : Option String) (dflt : String) : String :=
  match v with
  | none => dflt
  | some s => if s = "" then dflt else s

/-- Python `sep.join(parts)`. -/
def pyJoin (sep : String) : List String → String
  | [] => ""
  | [x] => x
  | x :: xs => x ++ sep ++ pyJoin sep xs

/-- Python `int(q)` on a float: truncation toward zero. -/
def pyInt (q : ℚ) : Int :=
  if 0 ≤ q then ⌊q⌋ else ⌈q⌉

/-- Python `s.strip()`: whitespace removed from both ends. -/
def pyStrip (s : String) : String :=
  String.mk
    (((s.data.dropWhile Char.isWhitespace).reverse.dropWhile
        Char.isWhitespace).reverse)

/-- Python `s[:n]`: the first `n` characters. -/
def pyTake (n : Nat) (s : String) : String :=
  String.mk (s.data.take n)

/-- Python `s.split("-")` on the character list of a string (every
occurrence of `'-'` separates, empty segments are kept). -/
def splitDash : List Char → List (List Char)
  | [] => [[]]
  | c :: cs =>
    if c = '-' then [] :: splitDash cs
    else
      match splitDash cs with
      | [] => [[c]]
      | h :: t => (c :: h) :: t

/-- Python `s.split("\n\n")` on the character list of a string
(leftmost, non-overlapping occurrences of the two-newline separator). -/
def splitPara : List Char → List (List Char)
  | [] => [[]]
  | '\n' :: '\n' :: cs => [] :: splitPara cs
  | c :: cs =>
    match splitPara cs with
    | [] => [[c]]
    | h :: t => (c :: h) :: t

/-- One row returned by the Cypher query of `fetch_movies_from_neo4j`
(`RETURN movie.title AS title, ... genres, director_name, actors`).
List-valued columns are embedded as lists of strings (a null or empty
entry inside a list is represented by `""`). -/
structure MovieRecord where
  title : StrVal
  overview : StrVal
  tagline : StrVal
  release_date : StrVal
  rating : NumVal
  runtime : NumVal
  movie_id : StrVal
  genres : List String
  director_name : StrVal
  actors : List String
deriving DecidableEq

/-- A LangChain `Document` as built by `create_document_from_record`:
`page_content`, the metadata dictionary (one field per key), and `id`. -/
structure Doc where
  page_content : String
  title : String
  release_date : String
  year : String
  rating : ℚ
  rating_category : String
  runtime : Int
  length_category : String
  all_genres : String
  director : String
  main_actors : String
  movie_id : String
  id : String
deriving DecidableEq

/-- Rating bucket: `"high" if rating >= 7 else "medium" if rating >= 5 else "low"`
(vector_store.py line 110). -/
def ratingCategory (rating : ℚ) : String :=
  if rating ≥ 7 then "high" else if rating ≥ 5 then "medium" else "low"

/-- Length bucket: `"long" if runtime >= 120 else "medium" if runtime >= 90 else "short"`
(vector_store.py line 113). -/
def lengthCategory (runtime : Int) : String :=
  if runtime ≥ 120 then "long" else if runtime ≥ 90 then "medium" else "short"

/-- Rank of a rating bucket, for stating monotonicity of the bucket
assignment (low < medium < high). -/
def catRank (s : String) : Nat :=
  if s = "high" then 2 else if s = "medium" then 1 else 0

/-- The document built by the non-`None` branch of
`create_document_from_record` (vector_store.py lines 88-139). -/
def buildDoc (r : MovieRecord) : Doc :=
  let overview := pyStr (r.overview.get "")
  let director := pyOr r.director_name.getN "Unknown"
  let actors := r.actors.filter (fun a => a != "")
  let main_actors := if actors.isEmpty then "Unknown" else pyJoin ", " (actors.take 5)
  let genres := r.genres.filter (fun g => g != "")
  let all_genres := if genres.isEmpty then "Unknown" else pyJoin ", " genres
  let tagline := pyStrip (pyOr r.tagline.getN "")
  let content_parts :=
    ["Titre : " ++ pyStr (r.title.get "Unknown")]
    ++ (if tagline = "" then [] else [tagline])
    ++ [overview,
        "Film réalisé par " ++ director,
        "Acteurs : " ++ main_actors,
        "Genres : " ++ all_genres]
  let content := pyJoin "\n\n" content_parts
  let rating : ℚ := match r.rating with | .missing => 0 | .num q => q
  let runtime : Int :=
    match r.runtime with
    | .missing => 0
    | .num q => if q = 0 then 0 else pyInt q
  let release_date := pyStr (r.release_date.get "")
  let year := if release_date = "" then "Unknown"
              else String.mk ((splitDash release_date.data).headD [])
  let movie_id := pyStr (r.movie_id.get "")
  { page_content := content
    title := pyStr (r.title.get "Unknown")
    release_date := release_date
    year := year
    rating := rating
    rating_category := ratingCategory rating
    runtime := runtime
    length_category := lengthCategory runtime
    all_genres := all_genres
    director := director
    main_actors := main_actors
    movie_id := movie_id
    id := "movie_" ++ movie_id }

/-- Function `create_document_from_record` (vector_store.py lines 74-139): returns
`None` when the overview is missing or blank after trimming, otherwise
the built document. -/
def create_document_from_record (r : MovieRecord) : Option Doc :=
  let overview := r.overview.get ""
  if !(optStrTruthy overview) || pyStrip (pyStr overview) = "" then none
  else some (buildDoc r)

/-- Function `create_documents` (vector_store.py lines 142-160): keeps the records
that yield a document, in order. -/
def create_documents (results : List MovieRecord) : List Doc :=
  results.filterMap create_document_from_record

/-! ## Index build (`create_neo4j_vector_store`, `get_retriever`) -/

/-- The value of a built vector store, tagged with its provenance:
loaded via `Neo4jVector.from_existing_index`, or rebuilt via
`Neo4jVector.from_documents` over the given documents. -/
inductive VStore where
  | fromIndex : VStore
  | fromDocs : List Doc → VStore
deriving DecidableEq

/-- Function `create_neo4j_vector_store` (vector_store.py lines 163-238).
`loadOk` embeds the outcome of the external
`Neo4jVector.from_existing_index` call (`true` = load succeeds,
`false` = it raises, which the code catches before falling back);
`records` embeds what `fetch_movies_from_neo4j` returns.  The Python
function returns the loaded store, the rebuilt store, or `None` when
zero documents were produced. -/
def create_neo4j_vector_store (useExisting loadOk : Bool)
    (records : List MovieRecord) : Option VStore :=
  if useExisting && loadOk then some VStore.fromIndex
  else
    let movie_documents := create_documents records
    if movie_documents.isEmpty then none
    else some (VStore.fromDocs movie_documents)

/-- One call of `get_retriever` (vector_store.py lines 241-261) against
the module-global `_retriever`: given the (deterministic, per-process)
outcome `c` of `create_neo4j_vector_store` and the current global state,
return the call's result, the new global state, and whether the call
invoked `create_neo4j_vector_store`. -/
def get_retriever_step (c st : Option VStore) :
    Option VStore × Option VStore × Bool :=
  match st with
  | some r => (some r, some r, false)
  | none => (c, c, true)

/-- A sequence of `n` `get_retriever` calls from global state `st`:
the list of per-call results, the final global state, and the number of
`create_neo4j_vector_store` invocations. -/
def get_retriever_run (c : Option VStore) :
    Nat → Option VStore → List (Option VStore) × Option VStore × Nat
  | 0, st => ([], st, 0)
  | n + 1, st =>
    let step := get_retriever_step c st
    let rest := get_retriever_run c n step.2.1
    (step.1 :: rest.1, rest.2.1, (if step.2.2 then 1 else 0) + rest.2.2)

/-! ## Retrieval tools (`tools.py`) -/

/-- The filter dictionary built by `retrieve_movies` (tools.py lines
25-31): an `all_genres $like` entry and a `rating $gte` entry, each
present exactly when the corresponding argument is Python-truthy. -/
structure Filters where
  genreLike : Option String
  ratingGte : Option ℚ
deriving DecidableEq

/-- Python truthiness of an optional float (None and 0.0 are falsy). -/
def optRatTruthy : Option ℚ → Bool
  | none => false
  | some r => r != 0

/-- Filter construction of `retrieve_movies` (tools.py lines 25-31). -/
def retrieveFilters (genre : Option String) (min_rating : Option ℚ) : Filters :=
  { genreLike := if optStrTruthy genre then genre else none
    ratingGte := if optRatTruthy min_rating then min_rating else none }

/-- Python `if filters:` — the filter dictionary is Python-falsy iff no entry
was added. -/
def Filters.isEmpty (f : Filters) : Bool :=
  f.genreLike.isNone && f.ratingGte.isNone

/-- Characters of a string lowered, for case-insensitive matching. -/
def lowerChars (s : String) : List Char :=
  s.data.map Char.toLower

/-- True iff the first list is an initial segment of the second. -/
def leadsWith : List Char → List Char → Bool
  | [], _ => true
  | _ :: _, [] => false
  | a :: as, b :: bs => a == b && leadsWith as bs

/-- True iff `nd` occurs contiguously inside the second list. -/
def hasSub (nd : List Char) : List Char → Bool
  | [] => nd.isEmpty
  | c :: cs => leadsWith nd (c :: cs) || hasSub nd cs

/-- Modelled from the spec: the backend's `$like` operator of the
filter engine (external to this repository) — a case-insensitive
substring match ("Action" matches "Action, Thriller"). -/
def likeMatch (haystack pattern : String) : Bool :=
  hasSub (lowerChars pattern) (lowerChars haystack)

/-- Whether a document satisfies a `retrieve_movies` filter dictionary:
genre is a case-insensitive substring match on `all_genres`, `$gte` is
an inclusive lower bound on `rating`. -/
def filterMatches (f : Filters) (d : Doc) : Bool :=
  (match f.genreLike with
   | none => true
   | some g => likeMatch d.all_genres g) &&
  (match f.ratingGte with
   | none => true
   | some r => decide (r ≤ d.rating))

/-- Modelled from the spec: `similarity_search` of the backing
Neo4jVector store (external to this repository).  `ranked` is the corpus
ordered by similarity to the query, best match first; the call returns
the top `n` vector hits, with the metadata filter applied post-hoc to
those hits. -/
def similarity_search (ranked : List Doc) (n : Nat) (f : Option Filters) :
    List Doc :=
  match f with
  | none => ranked.take n
  | some fl => (ranked.take n).filter (filterMatches fl)

/-- Python `str(x)` on a float, abstracted as the decimal string form of
the rational. -/
def floatStr (q : ℚ) : String := toString q

/-- The no-match message of `retrieve_movies` (tools.py lines 43-51):
names each applied filter. -/
def noMatchMsg (genre : Option String) (min_rating : Option ℚ) : String :=
  let filter_info :=
    (if optStrTruthy genre then ["genre: " ++ pyStr genre] else [])
    ++ (if optRatTruthy min_rating then
          ["note min: " ++ floatStr (min_rating.getD 0)] else [])
  let filter_str :=
    if filter_info.isEmpty then "" else " (" ++ pyJoin ", " filter_info ++ ")"
  "❌ Aucun film trouvé pour cette recherche" ++ filter_str ++ "."

/-- One entry of `formatted_movies` (tools.py lines 70-79). -/
structure MovieInfo where
  title : String
  overview : String
  director : String
  actors : String
  genres : String
  rating : ℚ
  runtime : Int
  release_date : String
deriving DecidableEq

/-- Synopsis extraction of `retrieve_movies` (tools.py lines 58-68):
the first paragraph of `page_content` that carries none of the four
labels and is longer than 50 characters. -/
def extractOverview (content : String) : String :=
  let content_parts := splitPara content.data
  match content_parts.find? (fun p =>
      !(leadsWith "Titre :".data p) &&
      !(leadsWith "Film réalisé par".data p) &&
      !(leadsWith "Acteurs :".data p) &&
      !(leadsWith "Genres :".data p) &&
      decide (p.length > 50)) with
  | some p => String.mk p
  | none => ""

/-- Construction of `movie_info` inside `retrieve_movies` (tools.py lines
58-80). -/
def movieInfo (d : Doc) : MovieInfo :=
  let overview := extractOverview d.page_content
  { title := d.title
    overview := if overview != "" then pyTake 300 overview
                else "Synopsis non disponible"
    director := d.director
    actors := d.main_actors
    genres := d.all_genres
    rating := d.rating
    runtime := d.runtime
    release_date := d.year }

/-- Display serialization of one movie (tools.py lines 83-91). -/
def serializeMovie (m : MovieInfo) : String :=
  "🎬 " ++ m.title ++ " (" ++ m.release_date ++ ")\n" ++
  "⭐ Note: " ++ floatStr m.rating ++ "/10 | ⏱️ Durée: " ++
    toString m.runtime ++ " min\n" ++
  "🎪 Genres: " ++ m.genres ++ "\n" ++
  "🎭 Réalisateur: " ++ m.director ++ "\n" ++
  "👥 Acteurs: " ++ m.actors ++ "\n" ++
  "📖 Résumé: " ++ m.overview

/-- The raw similarity-search result of `retrieve_movies` (tools.py
lines 33-41): over-fetch `k * 2` with the filter when any filter is
present, plain top-`k` otherwise. -/
def retrieveRaw (ranking : String → List Doc) (query : String)
    (genre : Option String) (min_rating : Option ℚ) (k : Nat) : List Doc :=
  let filters := retrieveFilters genre min_rating
  if !filters.isEmpty then
    similarity_search (ranking query) (k * 2) (some filters)
  else
    similarity_search (ranking query) k none

/-- Tool `retrieve_movies` (tools.py lines 4-93).  `ranking` embeds the
backing store: the corpus ordered by similarity for each query.  Returns
the display string and the artifact list. -/
def retrieve_movies (ranking : String → List Doc) (query : String)
    (genre : Option String) (min_rating : Option ℚ) (k : Nat) :
    String × List MovieInfo :=
  let results := retrieveRaw ranking query genre min_rating k
  if results.isEmpty then (noMatchMsg genre min_rating, [])
  else
    let results := results.take k
    let formatted_movies := results.map movieInfo
    (pyJoin "\n\n" (formatted_movies.map serializeMovie), formatted_movies)

/-- The filter dictionary built by `search_movies_by_filters` (tools.py
lines 129-147). -/
structure SearchFilters where
  genreLike : Option String
  ratingGte : Option ℚ
  ratingLte : Option ℚ
  yearGte : Option String
  directorLike : Option String
deriving DecidableEq

/-- Filter construction of `search_movies_by_filters` (tools.py lines
129-147): each entry is present exactly when the argument is
Python-truthy. -/
def buildSearchFilters (genre : Option String) (min_rating max_rating : Option ℚ)
    (min_year director : Option String) : SearchFilters :=
  { genreLike := if optStrTruthy genre then genre else none
    ratingGte := if optRatTruthy min_rating then min_rating else none
    ratingLte := if optRatTruthy max_rating then max_rating else none
    yearGte := if optStrTruthy min_year then min_year else none
    directorLike := if optStrTruthy director then director else none }

/-- Python `if not filters:` — the search filter dictionary is Python-falsy iff
no entry was added. -/
def SearchFilters.isEmpty (f : SearchFilters) : Bool :=
  f.genreLike.isNone && f.ratingGte.isNone && f.ratingLte.isNone &&
  f.yearGte.isNone && f.directorLike.isNone

/-- Lexicographic order on character lists, embedding the backend's
string comparison for the `year` range filter. -/
def charListLe : List Char → List Char → Bool
  | [], _ => true
  | _ :: _, [] => false
  | a :: as, b :: bs => a < b || (a == b && charListLe as bs)

/-- Whether a document satisfies a `search_movies_by_filters` filter
dictionary (spec §4.3 filter semantics: substring for genre/director,
inclusive numeric bounds for rating, string-compared lower bound for
year). -/
def searchMatches (f : SearchFilters) (d : Doc) : Bool :=
  (match f.genreLike with
   | none => true
   | some g => likeMatch d.all_genres g) &&
  (match f.ratingGte with
   | none => true
   | some r => decide (r ≤ d.rating)) &&
  (match f.ratingLte with
   | none => true
   | some r => decide (d.rating ≤ r)) &&
  (match f.yearGte with
   | none => true
   | some y => charListLe y.data d.year.data) &&
  (match f.directorLike with
   | none => true
   | some nm => likeMatch d.director nm)

/-- Modelled from the spec: the backend similarity search as called by
`search_movies_by_filters`, with a `SearchFilters` dictionary applied
post-hoc to the top `n` vector hits. -/
def similarity_search_sf (ranked : List Doc) (n : Nat) (f : SearchFilters) :
    List Doc :=
  (ranked.take n).filter (searchMatches f)

/-- Rendering of the filter dictionary in the no-match message of
`search_movies_by_filters` (Python interpolates `str(filters)`; the
exact dict syntax is abstracted as a field-by-field rendering). -/
def searchFiltersRepr (f : SearchFilters) : String :=
  pyJoin ", "
    ((match f.genreLike with
      | none => []
      | some g => ["all_genres $like " ++ g])
     ++ (match f.ratingGte with
         | none => []
         | some r => ["rating $gte " ++ floatStr r])
     ++ (match f.ratingLte with
         | none => []
         | some r => ["rating $lte " ++ floatStr r])
     ++ (match f.yearGte with
         | none => []
         | some y => ["year $gte " ++ y])
     ++ (match f.directorLike with
         | none => []
         | some nm => ["director $like " ++ nm]))

/-- Display of one result of `search_movies_by_filters` (tools.py lines
163-169). -/
def fmtByFilters (d : Doc) : String :=
  "🎬 " ++ d.title ++ " (" ++ d.year ++ ")\n" ++
  "⭐ " ++ floatStr d.rating ++ "/10 | 🎭 " ++ d.director ++ "\n" ++
  "🎪 " ++ d.all_genres

/-- Tool `search_movies_by_filters` (tools.py lines 99-174): filter-only
search driven by the neutral query `"film"`. -/
def search_movies_by_filters (ranking : String → List Doc)
    (genre : Option String) (min_rating max_rating : Option ℚ)
    (min_year director : Option String) (k : Nat) : String :=
  let filters := buildSearchFilters genre min_rating max_rating min_year director
  if filters.isEmpty then
    "❌ Aucun filtre spécifié. Utilisez retrieve_movies pour une recherche sémantique."
  else
    let results := similarity_search_sf (ranking "film") k filters
    if results.isEmpty then
      "❌ Aucun film trouvé avec ces critères: " ++ searchFiltersRepr filters
    else
      pyJoin "\n\n" (results.map fmtByFilters)

/-! ## Helper lemmas -/

/-- Concrete sample records used in witnesses and counterexamples. -/
def recBase : MovieRecord :=
  { title := .str "Inception", overview := .str "A thief who steals corporate secrets"
    tagline := .missing, release_date := .str "2010-07-16", rating := .num 8
    runtime := .num 148, movie_id := .str "27205", genres := ["Sci-Fi"]
    director_name := .str "Nolan", actors := ["Leonardo DiCaprio"] }

/-- A record whose release date is an explicit null. -/
def recNullDate : MovieRecord :=
  { recBase with release_date := .null }

/-- A record with a blank overview. -/
def recBlank : MovieRecord :=
  { recBase with overview := .str "   " }

theorem splitDash_ne_nil (l : List Char) : splitDash l ≠ [] := by
  cases l with
  | nil => simp [splitDash]
  | cons c cs =>
    simp only [splitDash]
    split
    · simp
    · split <;> simp

theorem splitDash_headD (l : List Char) :
    (splitDash l).headD [] = l.takeWhile (fun c => c != '-') := by
  induction l with
  | nil => rfl
  | cons c cs ih =>
    by_cases hc : c = '-'
    · subst hc
      simp [splitDash, List.takeWhile_cons]
    · have hb : (c != '-') = true := by simpa using hc
      rw [List.takeWhile_cons, hb]
      simp only [splitDash, if_neg hc]
      cases hsd : splitDash cs with
      | nil => exact absurd hsd (splitDash_ne_nil cs)
      | cons h t =>
        rw [hsd] at ih
        simp only [List.headD] at ih ⊢
        simp [ih]

theorem create_eq_buildDoc {r : MovieRecord} {d : Doc}
    (h : create_document_from_record r = some d) : d = buildDoc r := by
  simp only [create_document_from_record] at h
  split at h
  · exact absurd h (by simp)
  · exact (Option.some.inj h).symm

theorem string_append_data_inj {p a b : String}
    (h : p ++ a = p ++ b) : a = b := by
  have hd : p.data ++ a.data = p.data ++ b.data := by
    have := congrArg String.data h
    simpa [String.data_append] using this
  have hab := List.append_cancel_left hd
  cases a
  cases b
  exact congrArg String.mk hab

theorem catRank_low : catRank "low" = 0 := rfl

theorem catRank_medium : catRank "medium" = 1 := rfl

theorem catRank_high : catRank "high" = 2 := rfl

/-! ## Claims -/

/-- C2: `create_document_from_record` returns no document exactly when
the overview field is missing, null, or blank after trimming; for every
other record it returns some document (namely the built one). -/
theorem claim_C2_overview_gate (r : MovieRecord) :
    (create_document_from_record r = none ↔
      (r.overview = .missing ∨ r.overview = .null ∨
        ∃ s, r.overview = .str s ∧ pyStrip s = "")) ∧
    (∀ s, r.overview = .str s → pyStrip s ≠ "" →
      create_document_from_record r = some (buildDoc r)) := by
  constructor
  · cases hov : r.overview with
    | missing =>
      simp [create_document_from_record, hov, StrVal.get, optStrTruthy, pyStr]
    | null =>
      simp [create_document_from_record, hov, StrVal.get, optStrTruthy, pyStr]
    | str s =>
      by_cases hs : s = ""
      · subst hs
        simp [create_document_from_record, hov, StrVal.get, optStrTruthy,
          pyStr, pyStrip]
      · by_cases ht : pyStrip s = "" <;>
          simp [create_document_from_record, hov, StrVal.get, optStrTruthy,
            pyStr, hs, ht]
  · intro s hov ht
    have hs : s ≠ "" := by
      intro h
      exact ht (by simp [h, pyStrip])
    simp [create_document_from_record, hov, StrVal.get, optStrTruthy, pyStr,
      hs, ht]

/-- C2 witness: a record with a real overview yields a document, one with
a whitespace overview yields none. -/
theorem claim_C2_witness :
    create_document_from_record recBase = some (buildDoc recBase) ∧
    create_document_from_record recBlank = none := by
  constructor
  · exact (claim_C2_overview_gate recBase).2
      "A thief who steals corporate secrets" rfl (by decide)
  · exact ((claim_C2_overview_gate recBlank).1).mpr
      (Or.inr (Or.inr ⟨"   ", rfl, by decide⟩))

/-- C3: the document identifier of every built document is
`"movie_" ++ movie_id` — a function of the movie identifier only, never
of the title — so records agreeing on `movie_id` get the same id and
records with distinct present identifiers get distinct ids. -/
theorem claim_C3_doc_id (r₁ r₂ : MovieRecord) (d₁ d₂ : Doc)
    (h₁ : create_document_from_record r₁ = some d₁)
    (h₂ : create_document_from_record r₂ = some d₂) :
    d₁.id = "movie_" ++ pyStr (r₁.movie_id.get "") ∧
    (r₁.movie_id = r₂.movie_id → d₁.id = d₂.id) ∧
    (∀ m₁ m₂, r₁.movie_id = .str m₁ → r₂.movie_id = .str m₂ → m₁ ≠ m₂ →
      d₁.id ≠ d₂.id) := by
  have e₁ : d₁ = buildDoc r₁ := create_eq_buildDoc h₁
  have e₂ : d₂ = buildDoc r₂ := create_eq_buildDoc h₂
  subst e₁
  subst e₂
  refine ⟨rfl, ?_, ?_⟩
  · intro hmid
    simp [buildDoc, hmid]
  · intro m₁ m₂ hm₁ hm₂ hne heq
    apply hne
    have hid : "movie_" ++ m₁ = "movie_" ++ m₂ := by
      simpa [buildDoc, hm₁, hm₂, StrVal.get, pyStr] using heq
    exact string_append_data_inj hid

/-- C3 witness: two records with the same title and distinct identifiers
produce distinct document ids. -/
theorem claim_C3_witness :
    (buildDoc recBase).id ≠ (buildDoc { recBase with movie_id := .str "2" }).id := by
  exact (claim_C3_doc_id recBase { recBase with movie_id := .str "2" }
    (buildDoc recBase) (buildDoc { recBase with movie_id := .str "2" })
    ((claim_C2_overview_gate recBase).2 "A thief who steals corporate secrets"
      rfl (by decide))
    ((claim_C2_overview_gate _).2 "A thief who steals corporate secrets"
      rfl (by decide))).2.2 "27205" "2" rfl rfl (by decide)

/-- C4: the rating bucket maps every rating to exactly one of
low/medium/high with thresholds `< 5 → low`, `[5,7) → medium`,
`≥ 7 → high`; it is monotone in the rating, with boundary values
`5 → medium` and `7 → high`, and is the bucket stored on every built
document. -/
theorem claim_C4_rating_buckets (q q' : ℚ) :
    (q < 5 → ratingCategory q = "low") ∧
    (5 ≤ q → q < 7 → ratingCategory q = "medium") ∧
    (7 ≤ q → ratingCategory q = "high") ∧
    (ratingCategory q = "low" ∨ ratingCategory q = "medium" ∨
      ratingCategory q = "high") ∧
    (q ≤ q' → catRank (ratingCategory q) ≤ catRank (ratingCategory q')) ∧
    ratingCategory 5 = "medium" ∧ ratingCategory 7 = "high" ∧
    (∀ r d, create_document_from_record r = some d →
      d.rating_category = ratingCategory d.rating) := by
  refine ⟨?_, ?_, ?_, ?_, ?_, by norm_num [ratingCategory],
    by norm_num [ratingCategory], ?_⟩
  · intro h
    rw [ratingCategory, if_neg (by linarith), if_neg (by linarith)]
  · intro h₁ h₂
    rw [ratingCategory, if_neg (by linarith), if_pos (by linarith)]
  · intro h
    rw [ratingCategory, if_pos (by linarith)]
  · unfold ratingCategory
    split_ifs <;> simp
  · intro hle
    unfold ratingCategory
    split_ifs <;>
      simp_all [catRank_low, catRank_medium, catRank_high] <;> linarith
  · intro r d h
    rw [create_eq_buildDoc h]
    rfl

/-- C4 witness: boundary values and monotonicity at concrete ratings. -/
theorem claim_C4_witness :
    ratingCategory 4 = "low" ∧ ratingCategory 5 = "medium" ∧
    ratingCategory 7 = "high" ∧
    catRank (ratingCategory 4) ≤ catRank (ratingCategory 8) := by
  refine ⟨(claim_C4_rating_buckets 4 8).1 (by norm_num),
    (claim_C4_rating_buckets 5 8).2.1 (by norm_num) (by norm_num),
    (claim_C4_rating_buckets 7 8).2.2.1 (by norm_num),
    (claim_C4_rating_buckets 4 8).2.2.2.2.1 (by norm_num)⟩

/-- C1: whenever a full rebuild runs (`use_existing` effectively false,
i.e. it is false or the index load failed) and zero valid documents come
out of the fetched records, `create_neo4j_vector_store` returns no store
(the `None` return embodies the `EmptyCorpus` condition); and no run of
it ever returns a store built over an empty document list. -/
theorem claim_C1_empty_corpus (u l : Bool) (records : List MovieRecord) :
    ((u = false ∨ l = false) → create_documents records = [] →
      create_neo4j_vector_store u l records = none) ∧
    (∀ ds, create_neo4j_vector_store u l records = some (VStore.fromDocs ds) →
      ds ≠ []) := by
  constructor
  · rintro (h | h) hd <;> subst h <;>
      simp [create_neo4j_vector_store, hd]
  · intro ds h
    simp only [create_neo4j_vector_store] at h
    split at h
    · exact absurd (Option.some.inj h) (by simp)
    · split at h
      · exact absurd h (by simp)
      · rename_i hne
        have := Option.some.inj h
        have hds : ds = create_documents records := by
          injection this.symm
        intro hnil
        rw [hnil] at hds
        rw [← hds] at hne
        simp at hne

/-- C1 witness: a corpus whose only record has a blank overview makes
the rebuild fail with no store. -/
theorem claim_C1_witness :
    create_neo4j_vector_store false true [recBlank] = none :=
  (claim_C1_empty_corpus false true [recBlank]).1 (Or.inl rfl) (by decide)

/-- C5 counterexample: a record whose release date is present but null
gets year `"None"`, not `"Unknown"`, although the claim requires
`"Unknown"` whenever the release date is missing or `None`. -/
theorem claim_C5_counterexample :
    recNullDate.release_date = StrVal.null ∧
    (create_document_from_record recNullDate).map Doc.year = some "None" ∧
    some "None" ≠ some "Unknown" := by
  exact ⟨rfl, rfl, by decide⟩

/-- C5 (amended): the year of every built document is the substring of
the release-date's string form before the first `'-'`; when the release
date is a missing key (string form empty) the year is `"Unknown"`, but
when the release date is a present null its string form is `"None"` and
the year is `"None"`. -/
theorem claim_C5_year_derivation (r : MovieRecord) (d : Doc)
    (h : create_document_from_record r = some d) :
    d.year = match r.release_date with
      | .missing => "Unknown"
      | .null => "None"
      | .str s => if s = "" then "Unknown"
                  else String.mk (s.data.takeWhile (fun c => c != '-')) := by
  rw [create_eq_buildDoc h]
  cases hrd : r.release_date with
  | missing => simp [buildDoc, hrd, StrVal.get, pyStr]
  | null =>
    simp only [buildDoc, hrd, StrVal.get, pyStr]
    rw [if_neg (by decide)]
    rfl
  | str s =>
    by_cases hs : s = ""
    · subst hs
      simp [buildDoc, hrd, StrVal.get, pyStr]
    · simp only [buildDoc, hrd, StrVal.get, pyStr, if_neg hs]
      rw [splitDash_headD]

/-- C5 witness: a dated record gets the segment before the first dash. -/
theorem claim_C5_witness : (buildDoc recBase).year = "2010" := by
  have h := claim_C5_year_derivation recBase (buildDoc recBase)
    ((claim_C2_overview_gate recBase).2 "A thief who steals corporate secrets"
      rfl (by decide))
  rw [h]
  rfl

/-- C8: with `use_existing = true`, a successful load of the named index
returns the loaded store — never a rebuilt one, whatever the graph
contains — and a failed load falls back to exactly the full rebuild
path. -/
theorem claim_C8_load_then_fallback (lo : Bool) (records : List MovieRecord) :
    create_neo4j_vector_store true true records = some VStore.fromIndex ∧
    (∀ ds, create_neo4j_vector_store true true records ≠
      some (VStore.fromDocs ds)) ∧
    create_neo4j_vector_store true false records =
      create_neo4j_vector_store false lo records := by
  refine ⟨rfl, ?_, ?_⟩
  · intro ds h
    exact absurd (Option.some.inj h) (by simp)
  · simp [create_neo4j_vector_store]

/-- C8 witness: with the load succeeding the loaded store is returned
even over an empty graph. -/
theorem claim_C8_witness :
    create_neo4j_vector_store true true [] = some VStore.fromIndex :=
  (claim_C8_load_then_fallback true []).1

theorem get_retriever_run_cached (c : Option VStore) (n : Nat) (s : VStore) :
    get_retriever_run c n (some s) = (List.replicate n (some s), some s, 0) := by
  induction n with
  | zero => rfl
  | succ n ih =>
    simp [get_retriever_run, get_retriever_step, ih, List.replicate_succ]

theorem get_retriever_run_none (n : Nat) :
    get_retriever_run none n none = (List.replicate n none, none, n) := by
  induction n with
  | zero => rfl
  | succ n ih =>
    simp [get_retriever_run, get_retriever_step, ih, List.replicate_succ,
      Nat.add_comm]

/-- C9: across any sequence of `get_retriever` calls in one process,
a successfully created store is created on the first call only
(`create` runs at most once) and every call returns that cached store;
when creation fails (returns no store) every call surfaces the failure
by returning no store; and the global state visible to callers is only
ever the uninitialized state or the fully created store. -/
theorem claim_C9_lazy_singleton (c : Option VStore) (n : Nat) :
    (∀ s, c = some s →
      (get_retriever_run c n none).1 = List.replicate n (some s) ∧
      (get_retriever_run c n none).2.2 ≤ 1) ∧
    (c = none → (get_retriever_run c n none).1 = List.replicate n none ∧
      (get_retriever_run c n none).2.1 = none) ∧
    ((get_retriever_run c n none).2.1 = none ∨
      (get_retriever_run c n none).2.1 = c) := by
  refine ⟨?_, ?_, ?_⟩
  · rintro s rfl
    cases n with
    | zero => simp [get_retriever_run]
    | succ n =>
      simp [get_retriever_run, get_retriever_step, get_retriever_run_cached,
        List.replicate_succ]
  · rintro rfl
    rw [get_retriever_run_none]
    simp
  · cases hc : c with
    | none =>
      rw [get_retriever_run_none]
      simp
    | some s =>
      cases n with
      | zero => simp [get_retriever_run]
      | succ n =>
        simp [get_retriever_run, get_retriever_step,
          get_retriever_run_cached]

/-- C9 witness: three calls with a working creator return the cached
store three times with a single creation. -/
theorem claim_C9_witness :
    (get_retriever_run (some VStore.fromIndex) 3 none).1 =
      List.replicate 3 (some VStore.fromIndex) ∧
    (get_retriever_run (some VStore.fromIndex) 3 none).2.2 ≤ 1 :=
  (claim_C9_lazy_singleton (some VStore.fromIndex) 3).1 VStore.fromIndex rfl

theorem str_eq_of_data {a b : String} (h : a.data = b.data) : a = b := by
  cases a
  cases b
  exact congrArg String.mk h

theorem retrieveRaw_filtered (ranking : String → List Doc) (q : String)
    (genre : Option String) (minr : Option ℚ) (k : Nat)
    (hf : (retrieveFilters genre minr).isEmpty = false) :
    retrieveRaw ranking q genre minr k =
      similarity_search (ranking q) (k * 2)
        (some (retrieveFilters genre minr)) := by
  simp [retrieveRaw, hf]

theorem retrieve_movies_snd (ranking : String → List Doc) (q : String)
    (genre : Option String) (minr : Option ℚ) (k : Nat) :
    (retrieve_movies ranking q genre minr k).2 =
      ((retrieveRaw ranking q genre minr k).take k).map movieInfo := by
  simp only [retrieve_movies]
  cases hl : retrieveRaw ranking q genre minr k with
  | nil => simp
  | cons x xs => simp

/-- C6: when any filter is present, `retrieve_movies` requests `k * 2`
candidates from the similarity search (the filter applied post-hoc to
those hits) and returns the first `k` of the post-filter results in
order; every returned candidate comes from the unfiltered top-`2k`
superset. -/
theorem claim_C6_overfetch (ranking : String → List Doc) (q : String)
    (genre : Option String) (minr : Option ℚ) (k : Nat)
    (hf : (retrieveFilters genre minr).isEmpty = false) :
    (retrieve_movies ranking q genre minr k).2 =
      ((similarity_search (ranking q) (k * 2)
          (some (retrieveFilters genre minr))).take k).map movieInfo ∧
    ∀ d, d ∈ (similarity_search (ranking q) (k * 2)
        (some (retrieveFilters genre minr))).take k →
      d ∈ (ranking q).take (k * 2) := by
  constructor
  · rw [retrieve_movies_snd, retrieveRaw_filtered ranking q genre minr k hf]
  · intro d hd
    have h1 := List.take_subset k _ hd
    simp only [similarity_search] at h1
    exact List.mem_of_mem_filter h1

/-- C6 witness: a genre filter on a one-document corpus. -/
theorem claim_C6_witness :
    (retrieveFilters (some "Sci-Fi") (none : Option ℚ)).isEmpty = false ∧
    (retrieve_movies (fun _ => [buildDoc recBase]) "space" (some "Sci-Fi")
        none 1).2 =
      ((similarity_search [buildDoc recBase] 2
          (some (retrieveFilters (some "Sci-Fi") none))).take 1).map movieInfo :=
  ⟨by decide,
    (claim_C6_overfetch (fun _ => [buildDoc recBase]) "space" (some "Sci-Fi")
      none 1 (by decide)).1⟩

/-- C7: when the post-filter result set is empty, `retrieve_movies`
returns an empty candidate list together with the structured no-match
message, and that message names each applied filter (the genre value and
the min-rating value). -/
theorem claim_C7_no_match (ranking : String → List Doc) (q : String)
    (genre : Option String) (minr : Option ℚ) (k : Nat)
    (hf : (retrieveFilters genre minr).isEmpty = false)
    (he : similarity_search (ranking q) (k * 2)
        (some (retrieveFilters genre minr)) = []) :
    retrieve_movies ranking q genre minr k = (noMatchMsg genre minr, []) ∧
    (∀ g, genre = some g → g ≠ "" →
      ∃ a b, noMatchMsg genre minr = a ++ ("genre: " ++ g) ++ b) ∧
    (∀ rr, minr = some rr → rr ≠ 0 →
      ∃ a b, noMatchMsg genre minr =
        a ++ ("note min: " ++ floatStr rr) ++ b) := by
  refine ⟨?_, ?_, ?_⟩
  · have hr : retrieveRaw ranking q genre minr k = [] := by
      rw [retrieveRaw_filtered ranking q genre minr k hf, he]
    simp [retrieve_movies, hr]
  · intro g hg hgne
    subst hg
    have hgt : optStrTruthy (some g) = true := by
      simpa [optStrTruthy] using hgne
    cases hmr : optRatTruthy minr with
    | false =>
      refine ⟨"❌ Aucun film trouvé pour cette recherche" ++ " (",
        ")" ++ ".", ?_⟩
      apply str_eq_of_data
      simp [noMatchMsg, hgt, hmr, pyJoin, pyStr, String.data_append,
        List.append_assoc]
    | true =>
      refine ⟨"❌ Aucun film trouvé pour cette recherche" ++ " (",
        ", " ++ ("note min: " ++ floatStr (minr.getD 0)) ++ ")" ++ ".", ?_⟩
      apply str_eq_of_data
      simp [noMatchMsg, hgt, hmr, pyJoin, pyStr, String.data_append,
        List.append_assoc]
  · intro rr hr hrne
    subst hr
    have hrt : optRatTruthy (some rr) = true := by
      simpa [optRatTruthy] using hrne
    cases hgt : optStrTruthy genre with
    | false =>
      refine ⟨"❌ Aucun film trouvé pour cette recherche" ++ " (",
        ")" ++ ".", ?_⟩
      apply str_eq_of_data
      simp [noMatchMsg, hgt, hrt, pyJoin, pyStr, Option.getD,
        String.data_append, List.append_assoc]
    | true =>
      refine ⟨"❌ Aucun film trouvé pour cette recherche" ++ " ("
          ++ ("genre: " ++ pyStr genre) ++ ", ", ")" ++ ".", ?_⟩
      apply str_eq_of_data
      simp [noMatchMsg, hgt, hrt, pyJoin, pyStr, Option.getD,
        String.data_append, List.append_assoc]

/-- C7 witness: an empty corpus with a genre filter yields the empty
candidate list and a message naming the genre filter. -/
theorem claim_C7_witness :
    retrieve_movies (fun _ => []) "space" (some "Action") none 3 =
      (noMatchMsg (some "Action") none, []) ∧
    ∃ a b, noMatchMsg (some "Action") none =
      a ++ ("genre: " ++ "Action") ++ b := by
  have h := claim_C7_no_match (fun _ => []) "space" (some "Action") none 3
    (by decide) rfl
  exact ⟨h.1, h.2.1 "Action" rfl (by decide)⟩

/-- C10: a falsy filter argument is treated as absent in both tools —
`min_rating = 0.0`, `max_rating = 0.0` and `genre = ""` produce no
filter entry, and passing `min_rating = 0.0` returns exactly the results
of passing no rating filter at all. -/
theorem claim_C10_falsy_filters (ranking : String → List Doc) (q : String)
    (genre : Option String) (minr maxr : Option ℚ)
    (miny dir : Option String) (k : Nat) :
    retrieve_movies ranking q genre (some 0) k =
      retrieve_movies ranking q genre none k ∧
    (retrieveFilters genre (some 0)).ratingGte = none ∧
    (retrieveFilters (some "") minr).genreLike = none ∧
    search_movies_by_filters ranking (some "") (some 0) (some 0) miny dir k =
      search_movies_by_filters ranking none none none miny dir k ∧
    (buildSearchFilters genre (some 0) maxr miny dir).ratingGte = none ∧
    (buildSearchFilters genre minr (some 0) miny dir).ratingLte = none ∧
    (buildSearchFilters (some "") minr maxr miny dir).genreLike = none := by
  have h0 : optRatTruthy (some (0 : ℚ)) = false := by
    simp [optRatTruthy]
  have hs : optStrTruthy (some "") = false := by
    simp [optStrTruthy]
  refine ⟨?_, ?_, ?_, ?_, ?_, ?_, ?_⟩
  · have hfl : retrieveFilters genre (some 0) = retrieveFilters genre none := by
      simp [retrieveFilters, h0, optRatTruthy]
    have hmsg : noMatchMsg genre (some 0) = noMatchMsg genre none := by
      simp [noMatchMsg, h0, optRatTruthy]
    simp only [retrieve_movies, retrieveRaw]
    rw [hfl, hmsg]
  · simp [retrieveFilters, h0]
  · simp [retrieveFilters, hs]
  · have hfl : buildSearchFilters (some "") (some 0) (some 0) miny dir =
        buildSearchFilters none none none miny dir := by
      simp [buildSearchFilters, h0, hs, optRatTruthy, optStrTruthy]
    simp only [search_movies_by_filters]
    rw [hfl]
  · simp [buildSearchFilters, h0]
  · simp [buildSearchFilters, h0]
  · simp [buildSearchFilters, hs]

/-- C10 witness: a zero min-rating behaves as no rating filter on a
concrete call. -/
theorem claim_C10_witness :
    retrieve_movies (fun _ => [buildDoc recBase]) "space" none (some 0) 2 =
      retrieve_movies (fun _ => [buildDoc recBase]) "space" none none 2 :=
  (claim_C10_falsy_filters (fun _ => [buildDoc recBase]) "space" none none
    none none none 2).1

end MovieRag
